import Mathlib

/-!
Verification development for the juce-cmp cross-process surface-sharing and
control-protocol subsystem.  The definitions below are a shallow embedding of
the C++ sources (juce_cmp/ChildProcess.cpp, ComposeProvider.cpp, Ipc.cpp,
EventReceiver.h, InputSender.cpp, input_event.h, ipc_protocol.h):

* machine integers are modelled as `Nat` bit patterns with explicit `% 2^w`
  where overflow matters (uint8 fields are `< 256`, int16 fields are 16-bit
  patterns `< 65536`, uint32 fields are `< 2^32`);
* the byte stream of the duplex socket is a `List Nat` of byte values, where
  the end of the list models the peer closing the connection;
* fallible operations return `Except`/`Option` or a `Bool` success flag,
  matching the source's return conventions;
* side effects (closing descriptors, waitpid, kill, releasing surfaces) are
  reified as traces of action values so that ordering claims can be stated.
-/

-- ============================================================================
-- Wire protocol constants (ipc_protocol.h)
-- ============================================================================

/-- First byte of every message: input event follows (ipc_protocol.h). -/
def EVENT_TYPE_INPUT : Nat := 0

/-- First byte of every message: CMP event (1-byte subtype) follows. -/
def EVENT_TYPE_CMP : Nat := 1

/-- First byte of every message: JUCE event (4-byte LE size + payload) follows. -/
def EVENT_TYPE_JUCE : Nat := 2

/-- First byte of every message: 4-byte IOSurface ID follows (ipc_protocol.h). -/
def EVENT_TYPE_SURFACE_ID : Nat := 3

/-- Modelled from the spec: Ipc.cpp dispatches on an `EVENT_TYPE_MIDI` tag whose
defining header is not among the sources (ipc_protocol.h stops at tag 3).  The
value is chosen distinct from the defined tags; no claim depends on its value,
only on it being a distinct tag. -/
def EVENT_TYPE_MIDI : Nat := 4

/-- Modelled from the spec: Ipc.cpp compares the CMP subtype byte against
`CMP_EVENT_SURFACE_READY`, whose defining header is not among the sources.
ipc_protocol.h defines the same subtype slot as `CMP_SUBTYPE_FIRST_FRAME = 0`,
so the value 0 is used. -/
def CMP_EVENT_SURFACE_READY : Nat := 0

/-- InputEvent.type values (ipc_protocol.h). -/
def INPUT_EVENT_MOUSE : Nat := 0

def INPUT_EVENT_KEY : Nat := 1

def INPUT_EVENT_FOCUS : Nat := 2

def INPUT_EVENT_RESIZE : Nat := 3

/-- InputEvent.action values (ipc_protocol.h). -/
def INPUT_ACTION_PRESS : Nat := 0

def INPUT_ACTION_RELEASE : Nat := 1

def INPUT_ACTION_MOVE : Nat := 2

def INPUT_ACTION_SCROLL : Nat := 3

def INPUT_BUTTON_NONE : Nat := 0

-- ============================================================================
-- InputEvent (input_event.h / ipc_protocol.h): packed 16-byte record
-- ============================================================================

/-- The packed 16-byte input record of input_event.h.  uint8 fields are byte
patterns, int16 fields are 16-bit two's-complement bit patterns (`< 65536`),
the timestamp is a uint32 pattern (`< 2^32`). -/
structure InputEvent where
  type : Nat
  action : Nat
  button : Nat
  modifiers : Nat
  x : Nat
  y : Nat
  data1 : Nat
  data2 : Nat
  timestamp : Nat
  deriving DecidableEq, Repr

/-- Field ranges enforced by the C types of the packed struct. -/
def InputEvent.wf (e : InputEvent) : Prop :=
  e.type < 256 ∧ e.action < 256 ∧ e.button < 256 ∧ e.modifiers < 256 ∧
  e.x < 65536 ∧ e.y < 65536 ∧ e.data1 < 65536 ∧ e.data2 < 65536

instance (e : InputEvent) : Decidable e.wf := by
  unfold InputEvent.wf; infer_instance

/-- The 16 wire bytes of an `InputEvent`:
`type(1) action(1) button(1) modifiers(1) x(2) y(2) data1(2) data2(2)
timestamp(4)`, little-endian, exactly the layout of the packed struct that
`Ipc::sendInput` / `InputSender::sendInputEvent` write with
`write(fd, &event, sizeof(InputEvent))`. -/
def encodeInputEvent (e : InputEvent) : List Nat :=
  [ e.type % 256, e.action % 256, e.button % 256, e.modifiers % 256,
    e.x % 256, e.x / 256 % 256,
    e.y % 256, e.y / 256 % 256,
    e.data1 % 256, e.data1 / 256 % 256,
    e.data2 % 256, e.data2 / 256 % 256,
    e.timestamp % 256, e.timestamp / 256 % 256,
    e.timestamp / 65536 % 256, e.timestamp / 16777216 % 256 ]

/-- Reading the packed 16-byte record back from the wire (the child-side
decoder of the same struct layout); `none` when not exactly 16 bytes. -/
def decodeInputEvent : List Nat → Option InputEvent
  | [b0, b1, b2, b3, b4, b5, b6, b7, b8, b9, b10, b11, b12, b13, b14, b15] =>
      some { type := b0, action := b1, button := b2, modifiers := b3,
             x := b4 + 256 * b5, y := b6 + 256 * b7,
             data1 := b8 + 256 * b9, data2 := b10 + 256 * b11,
             timestamp := b12 + 256 * b13 + 65536 * b14 + 16777216 * b15 }
  | _ => none

/-- C6: encoding an in-range `InputEvent` to the 16-byte little-endian wire
record and decoding it back restores type, action, button, modifiers, x, y,
data1 and data2 exactly; the timestamp comes back as its uint32 truncation
(it is outside the round-trip contract). -/
theorem inputEvent_encode_decode_roundtrip (e : InputEvent) (hwf : e.wf) :
    decodeInputEvent (encodeInputEvent e) =
      some { e with timestamp := e.timestamp % 4294967296 } := by
  obtain ⟨t, a, b, m, x, y, d1, d2, ts⟩ := e
  simp only [InputEvent.wf] at hwf
  obtain ⟨h1, h2, h3, h4, h5, h6, h7, h8⟩ := hwf
  simp only [encodeInputEvent, decodeInputEvent, Option.some.injEq, InputEvent.mk.injEq]
  omega

/-- Witness for C6 at a concrete key-press event of each field class. -/
theorem inputEvent_encode_decode_roundtrip_witness :
    decodeInputEvent (encodeInputEvent
        ⟨INPUT_EVENT_KEY, INPUT_ACTION_PRESS, 0, 3, 65, 0, 300, 1, 4294967295⟩) =
      some ⟨INPUT_EVENT_KEY, INPUT_ACTION_PRESS, 0, 3, 65, 0, 300, 1, 4294967295⟩ :=
  inputEvent_encode_decode_roundtrip
    ⟨INPUT_EVENT_KEY, INPUT_ACTION_PRESS, 0, 3, 65, 0, 300, 1, 4294967295⟩
    (by decide)

-- ============================================================================
-- ChildProcess (ChildProcess.cpp): lifecycle of the forked UI renderer
-- ============================================================================

/-- The parent-side state of `juce_cmp::ChildProcess`: the write end of the
child's stdin pipe, the read end of the child's stdout pipe (`none` models a
closed / -1 descriptor), and the child pid (0 = no child). -/
structure ChildProcess where
  stdinPipeFD : Option Nat
  stdoutPipeFD : Option Nat
  childPid : Nat
  deriving DecidableEq, Repr

/-- The observable steps `ChildProcess::stop` performs, in source order:
close the stdin write end (the child's EOF shutdown signal), one
`waitpid(WNOHANG)` + 10ms sleep poll, `kill(SIGKILL)`, the blocking
`waitpid` that reaps the child, and closing the stdout read end. -/
inductive CPAction where
  | closeWrite
  | pollStep
  | forceKill
  | waitBlocking
  | closeRead
  deriving DecidableEq, Repr

/-- The grace-period loop of `ChildProcess::stop` (`for (i = 0; i < 20; ++i)`):
`env i = true` models `waitpid(childPid, WNOHANG)` returning nonzero at poll
`i` (child exited or waitpid error).  Returns the pid after the loop
(0 once reaped) and the trace of polls performed. -/
def ChildProcess.waitLoop (env : Nat → Bool) (pid : Nat) : Nat → Nat → Nat × List CPAction
  | _, 0 => (pid, [])
  | i, fuel + 1 =>
      if env i then (0, [CPAction.pollStep])
      else
        let r := ChildProcess.waitLoop env pid (i + 1) fuel
        (r.1, CPAction.pollStep :: r.2)

/-- `ChildProcess::stop` (ChildProcess.cpp lines 91-132): close the stdin
write end first, run the 200ms/10ms grace loop while a child exists, force
kill and reap if it is still alive, close the stdout read end last.  Returns
the post state and the ordered trace of performed steps. -/
def ChildProcess.stop (s : ChildProcess) (env : Nat → Bool) : ChildProcess × List CPAction :=
  let closeActs : List CPAction :=
    match s.stdinPipeFD with
    | some _ => [CPAction.closeWrite]
    | none => []
  let waited : Nat × List CPAction :=
    if s.childPid ≠ 0 then ChildProcess.waitLoop env s.childPid 0 20 else (0, [])
  let killActs : List CPAction :=
    if waited.1 ≠ 0 then [CPAction.forceKill, CPAction.waitBlocking] else []
  let readActs : List CPAction :=
    match s.stdoutPipeFD with
    | some _ => [CPAction.closeRead]
    | none => []
  (⟨none, none, 0⟩, closeActs ++ waited.2 ++ killActs ++ readActs)

/-- `ChildProcess::isRunning` (ChildProcess.cpp lines 134-143): false when no
child pid is recorded, otherwise the result of the `kill(childPid, 0)` OS
liveness probe, modelled by `osAlive`. -/
def ChildProcess.isRunning (s : ChildProcess) (osAlive : Nat → Bool) : Bool :=
  if s.childPid = 0 then false else osAlive s.childPid

/-- The grace loop emits only poll steps, at most `fuel` of them, and ends
with pid 0 (reaped) or the original pid (still alive). -/
theorem ChildProcess.waitLoop_shape (env : Nat → Bool) (pid : Nat) :
    ∀ fuel i, (∀ a ∈ (ChildProcess.waitLoop env pid i fuel).2, a = CPAction.pollStep) ∧
      (ChildProcess.waitLoop env pid i fuel).2.length ≤ fuel ∧
      ((ChildProcess.waitLoop env pid i fuel).1 = 0 ∨
        (ChildProcess.waitLoop env pid i fuel).1 = pid) := by
  intro fuel
  induction fuel with
  | zero => intro i; simp [ChildProcess.waitLoop]
  | succ n ih =>
      intro i
      by_cases h : env i
      · simp [ChildProcess.waitLoop, h]
      · have hrec := ih (i + 1)
        simp only [ChildProcess.waitLoop, h, Bool.false_eq_true, if_false]
        refine ⟨?_, ?_, hrec.2.2⟩
        · intro a ha
          rcases List.mem_cons.mp ha with h1 | h1
          · exact h1
          · exact hrec.1 a h1
        · simpa using Nat.succ_le_succ hrec.2.1

/-- When the child never exits during the grace window, the loop performs all
`fuel` polls and leaves the pid alive. -/
theorem ChildProcess.waitLoop_ignores (env : Nat → Bool) (pid : Nat)
    (henv : ∀ j, env j = false) :
    ∀ fuel i, ChildProcess.waitLoop env pid i fuel =
      (pid, List.replicate fuel CPAction.pollStep) := by
  intro fuel
  induction fuel with
  | zero => intro i; simp [ChildProcess.waitLoop]
  | succ n ih =>
      intro i
      simp [ChildProcess.waitLoop, henv i, ih (i + 1), List.replicate_succ]

/-- C1: `ChildProcess::stop` on a live child closes the stdin write end first,
then polls `waitpid` at most 20 times (10ms apart), then — if the child is
still alive, in particular for a child that ignores the shutdown signal —
sends SIGKILL and blocks in `waitpid` until the child is reaped, and closes
the stdout read end only after all of that; afterwards the recorded pid is 0,
so `isRunning` is false under every OS liveness probe, and a second `stop`
changes nothing and performs no step (idempotence). -/
theorem childProcess_stop_ordered_idempotent (s : ChildProcess)
    (env env2 : Nat → Bool) (osAlive : Nat → Bool)
    (hin : s.stdinPipeFD.isSome) (hpid : s.childPid ≠ 0)
    (hout : s.stdoutPipeFD.isSome) :
    (∃ polls kills,
      (ChildProcess.stop s env).2 =
          CPAction.closeWrite :: (polls ++ kills ++ [CPAction.closeRead]) ∧
      (∀ a ∈ polls, a = CPAction.pollStep) ∧ polls.length ≤ 20 ∧
      (kills = [] ∨ kills = [CPAction.forceKill, CPAction.waitBlocking]) ∧
      ((∀ j, env j = false) →
        polls.length = 20 ∧ kills = [CPAction.forceKill, CPAction.waitBlocking])) ∧
    (ChildProcess.stop s env).1.childPid = 0 ∧
    ChildProcess.isRunning (ChildProcess.stop s env).1 osAlive = false ∧
    ChildProcess.stop (ChildProcess.stop s env).1 env2 =
      ((ChildProcess.stop s env).1, []) := by
  obtain ⟨w, hw⟩ := Option.isSome_iff_exists.mp hin
  obtain ⟨r, hr⟩ := Option.isSome_iff_exists.mp hout
  have hshape := ChildProcess.waitLoop_shape env s.childPid 20 0
  refine ⟨⟨(ChildProcess.waitLoop env s.childPid 0 20).2,
      if (ChildProcess.waitLoop env s.childPid 0 20).1 ≠ 0 then
        [CPAction.forceKill, CPAction.waitBlocking] else [], ?_, ?_, ?_, ?_, ?_⟩,
      ?_, ?_, ?_⟩
  · simp [ChildProcess.stop, hw, hr, hpid]
  · exact hshape.1
  · exact hshape.2.1
  · by_cases hk : (ChildProcess.waitLoop env s.childPid 0 20).1 = 0
    · simp [hk]
    · simp [hk]
  · intro henv
    have := ChildProcess.waitLoop_ignores env s.childPid henv 20 0
    simp [this, hpid]
  · simp [ChildProcess.stop]
  · simp [ChildProcess.stop, ChildProcess.isRunning]
  · simp [ChildProcess.stop]

/-- Witness for C1: a live child (fds 4 and 5, pid 7) that ignores the
shutdown signal, under a probe that reports any nonzero pid alive. -/
theorem childProcess_stop_ordered_idempotent_witness :
    (∃ polls kills,
      (ChildProcess.stop ⟨some 4, some 5, 7⟩ (fun _ => false)).2 =
          CPAction.closeWrite :: (polls ++ kills ++ [CPAction.closeRead]) ∧
      (∀ a ∈ polls, a = CPAction.pollStep) ∧ polls.length ≤ 20 ∧
      (kills = [] ∨ kills = [CPAction.forceKill, CPAction.waitBlocking]) ∧
      ((∀ j, (fun (_ : Nat) => false) j = false) →
        polls.length = 20 ∧ kills = [CPAction.forceKill, CPAction.waitBlocking])) ∧
    (ChildProcess.stop ⟨some 4, some 5, 7⟩ (fun _ => false)).1.childPid = 0 ∧
    ChildProcess.isRunning (ChildProcess.stop ⟨some 4, some 5, 7⟩ (fun _ => false)).1
      (fun p => p ≠ 0) = false ∧
    ChildProcess.stop (ChildProcess.stop ⟨some 4, some 5, 7⟩ (fun _ => false)).1
        (fun _ => true) =
      ((ChildProcess.stop ⟨some 4, some 5, 7⟩ (fun _ => false)).1, []) :=
  childProcess_stop_ordered_idempotent ⟨some 4, some 5, 7⟩ (fun _ => false)
    (fun _ => true) (fun p => p ≠ 0) (by decide) (by decide) (by decide)

-- ============================================================================
-- ComposeProvider (ComposeProvider.cpp): orchestrator
-- ============================================================================

/-- The teardown steps of `ComposeProvider::stop`, one constructor per call in
the source: `machPortIPC_.destroyServer()`, `machPortThread_.join()`,
`child_.stop()`, `ipc_.stop()`, `view_.destroy()`, `surface_.release()`. -/
inductive ProvAction where
  | destroyHandleChannel
  | joinHandleThread
  | stopChild
  | stopIpc
  | destroyView
  | releaseSurface
  deriving DecidableEq, Repr

/-- The call sequence of `ComposeProvider::stop` (ComposeProvider.cpp lines
94-105), in source order: destroy the Mach handle-transfer server and join its
thread, stop the child process, stop the IPC control channel, destroy the
view, release the surface. -/
def ComposeProvider.stopOrder : List ProvAction :=
  [ProvAction.destroyHandleChannel, ProvAction.joinHandleThread,
   ProvAction.stopChild, ProvAction.stopIpc,
   ProvAction.destroyView, ProvAction.releaseSurface]

/-- C2 counterexample: the order claimed by the spec — Control Channel stopped
first, then the Process Supervisor, then the Handle Transfer Channel released,
then the Surface — is false of `ComposeProvider::stop`: the source stops the
child process before the control channel and destroys the handle-transfer
server first of all. -/
theorem composeProvider_stop_specOrder_false :
    ¬ (ComposeProvider.stopOrder.indexOf ProvAction.stopIpc <
          ComposeProvider.stopOrder.indexOf ProvAction.stopChild ∧
       ComposeProvider.stopOrder.indexOf ProvAction.stopChild <
          ComposeProvider.stopOrder.indexOf ProvAction.destroyHandleChannel ∧
       ComposeProvider.stopOrder.indexOf ProvAction.destroyHandleChannel <
          ComposeProvider.stopOrder.indexOf ProvAction.releaseSurface) := by
  decide

/-- C2 amended: `ComposeProvider::stop` tears down in exactly this order —
Handle Transfer Channel first (server destroyed, then its thread joined), then
the Process Supervisor, then the Control Channel, then the view, and the
Surface last; in particular the surface is released only after the child
process has been stopped. -/
theorem composeProvider_stop_actual_order :
    ComposeProvider.stopOrder =
      [ProvAction.destroyHandleChannel, ProvAction.joinHandleThread,
       ProvAction.stopChild, ProvAction.stopIpc,
       ProvAction.destroyView, ProvAction.releaseSurface] ∧
    ComposeProvider.stopOrder.indexOf ProvAction.stopChild <
      ComposeProvider.stopOrder.indexOf ProvAction.releaseSurface := by
  decide

/-- One flag per fallible step of provider start-up: `Surface::create`,
`MachPortIPC::createServer`, and inside `ChildProcess::launch` the
existence check on the bundled ui executable, the two `pipe()` calls and
`fork()` (ChildProcess.cpp lines 22-49). -/
structure LaunchEnv where
  surfaceCreateOk : Bool
  machCreateOk : Bool
  execExists : Bool
  stdinPipeOk : Bool
  stdoutPipeOk : Bool
  forkOk : Bool
  deriving DecidableEq, Repr

/-- Start-up failure causes, one per `return false` site of
`ComposeProvider::launch` / `ChildProcess::launch`.  The C++ functions return
a bare `false`; the constructor records which check failed (the site of the
early return, e.g. the `"UI executable not found"` branch). -/
inductive StartError where
  | SurfaceAllocationFailed
  | HandleChannelFailed
  | ExecutableNotFound
  | LaunchFailed
  deriving DecidableEq, Repr

/-- `ChildProcess::launch` (ChildProcess.cpp lines 22-89): fails on a missing
ui executable (before any resource is touched), on either failed `pipe()`
call (closing what was opened), or on a failed `fork()` (closing all four
descriptors); otherwise the child is spawned. -/
def ChildProcess.launch (env : LaunchEnv) : Except StartError Unit :=
  if env.execExists = false then Except.error StartError.ExecutableNotFound
  else if env.stdinPipeOk = false then Except.error StartError.LaunchFailed
  else if env.stdoutPipeOk = false then Except.error StartError.LaunchFailed
  else if env.forkOk = false then Except.error StartError.LaunchFailed
  else Except.ok ()

/-- The resources `ComposeProvider::launch` may leave allocated: the shared
surface, the Mach handle-transfer server, a live child process. -/
structure ProvResources where
  surfaceAlloc : Bool
  machServer : Bool
  childLive : Bool
  deriving DecidableEq, Repr

/-- `ComposeProvider::launch` (ComposeProvider.cpp lines 24-92): create the
surface; on Mach server failure release the surface; on child-launch failure
release the surface and destroy the Mach server; on success everything is
live.  Returns the result together with the resources still held. -/
def ComposeProvider.launch (env : LaunchEnv) : Except StartError Unit × ProvResources :=
  if env.surfaceCreateOk = false then
    (Except.error StartError.SurfaceAllocationFailed, ⟨false, false, false⟩)
  else
    let r1 : ProvResources := ⟨true, false, false⟩
    if env.machCreateOk = false then
      (Except.error StartError.HandleChannelFailed, { r1 with surfaceAlloc := false })
    else
      let r2 : ProvResources := { r1 with machServer := true }
      match ChildProcess.launch env with
      | Except.error e =>
          (Except.error e, { r2 with surfaceAlloc := false, machServer := false })
      | Except.ok _ => (Except.ok (), { r2 with childLive := true })

/-- C4: whenever provider start fails — surface allocation, Mach handle
channel set-up, missing executable, pipe or fork failure — every resource
already allocated is rolled back before the error is returned: no surface, no
handle-transfer server, no live child remain; and when the surface and the
Mach server come up but the ui executable is missing, the failure is the
`ExecutableNotFound` site. -/
theorem composeProvider_launch_rollback (env : LaunchEnv)
    (hfail : (ComposeProvider.launch env).1 ≠ Except.ok ()) :
    (ComposeProvider.launch env).2 = ⟨false, false, false⟩ ∧
    (env.surfaceCreateOk = true → env.machCreateOk = true → env.execExists = false →
      (ComposeProvider.launch env).1 = Except.error StartError.ExecutableNotFound) := by
  obtain ⟨s, m, ex, p1, p2, f⟩ := env
  cases s <;> cases m <;> cases ex <;> cases p1 <;> cases p2 <;> cases f <;>
    simp_all [ComposeProvider.launch, ChildProcess.launch]

/-- Witness for C4: starting with a present surface and Mach server but a
missing ui executable fails at the `ExecutableNotFound` site and leaves no
resource allocated. -/
theorem composeProvider_launch_rollback_witness :
    (ComposeProvider.launch ⟨true, true, false, true, true, true⟩).2 =
        ⟨false, false, false⟩ ∧
    ((true : Bool) = true → (true : Bool) = true → (false : Bool) = false →
      (ComposeProvider.launch ⟨true, true, false, true, true, true⟩).1 =
        Except.error StartError.ExecutableNotFound) :=
  composeProvider_launch_rollback ⟨true, true, false, true, true, true⟩
    (by intro h; exact Except.noConfusion h)

-- ============================================================================
-- Ipc receive path (Ipc.cpp lines 119-231)
-- ============================================================================

/-- The receiver-side channel state: the unread bytes of the socket (the end
of the list models the peer closing the stream or a read error) and, for each
upcoming `readFully` call, an optional cap on how many bytes it may obtain
before `running` is observed false (`stop()` clearing the flag mid-read);
`none` means the call is not interrupted. -/
structure RxState where
  stream : List Nat
  caps : List (Option Nat)
  deriving DecidableEq, Repr

/-- `Ipc::readFully` (Ipc.cpp lines 205-231): loop reading until `size` bytes
are obtained, or fewer when the stream ends or the running flag is cleared
mid-read.  Returns the bytes actually obtained and the rest of the channel
state; the caller compares the byte count against the requested size. -/
def Ipc.readFully (st : RxState) (n : Nat) : List Nat × RxState :=
  match st.caps with
  | [] => (st.stream.take n, ⟨st.stream.drop n, []⟩)
  | c :: cs =>
      let k : Nat := match c with | none => n | some m => min n m
      (st.stream.take k, ⟨st.stream.drop k, cs⟩)

/-- What the receiver thread hands to the owning (message) thread via
`MessageManager::callAsync`.  `event` and `midi` record the declared payload
size alongside the bytes dispatched.  `disconnect` is modelled from the spec:
it stands for the `on_unexpected_disconnect` notification the spec describes;
Ipc.cpp registers no such handler, so no code path constructs it. -/
inductive HostAction where
  | frameReady
  | event (declared : Nat) (payload : List Nat)
  | midi (declared : Nat) (payload : List Nat)
  | disconnect
  deriving DecidableEq, Repr

/-- `Ipc::handleCmpEvent` (Ipc.cpp lines 144-157): read the 1-byte subtype;
on a short read drop the message; dispatch the frame-ready callback only for
`CMP_EVENT_SURFACE_READY`. -/
def Ipc.handleCmpEvent (st : RxState) : List HostAction × RxState :=
  let r := Ipc.readFully st 1
  match r.1 with
  | [b] => (if b = CMP_EVENT_SURFACE_READY then [HostAction.frameReady] else [], r.2)
  | _ => ([], r.2)

/-- `Ipc::handleJuceEvent` (Ipc.cpp lines 159-180): read the 4-byte LE size;
drop the message on a short read, a zero size, or a size above 1 MiB (without
allocating or reading the declared payload); otherwise read exactly `size`
payload bytes, drop on a short read, and dispatch only when the deserialized
tree is valid (`valid` models `ValueTree::readFromData(...).isValid()`). -/
def Ipc.handleJuceEvent (valid : List Nat → Bool) (st : RxState) :
    List HostAction × RxState :=
  let r := Ipc.readFully st 4
  match r.1 with
  | [s0, s1, s2, s3] =>
      let size := s0 + 256 * s1 + 65536 * s2 + 16777216 * s3
      if size = 0 ∨ size > 1048576 then ([], r.2)
      else
        let p := Ipc.readFully r.2 size
        if p.1.length = size then
          (if valid p.1 then [HostAction.event size p.1] else [], p.2)
        else ([], p.2)
  | _ => ([], r.2)

/-- `Ipc::handleMidiEvent` (Ipc.cpp lines 182-203): read the 1-byte size; drop
the message on a short read, a zero size or a size above 255; otherwise read
exactly `size` bytes and dispatch them, dropping the message on a short
read. -/
def Ipc.handleMidiEvent (st : RxState) : List HostAction × RxState :=
  let r := Ipc.readFully st 1
  match r.1 with
  | [s0] =>
      if s0 = 0 ∨ s0 > 255 then ([], r.2)
      else
        let p := Ipc.readFully r.2 s0
        if p.1.length = s0 then ([HostAction.midi s0 p.1], p.2)
        else ([], p.2)
  | _ => ([], r.2)

/-- `Ipc::readerLoop` (Ipc.cpp lines 119-142): read the 1-byte type tag and
break out of the loop when that read does not return exactly one byte;
otherwise dispatch to the matching handler (unknown tags are skipped) and
continue.  The fuel argument only bounds the recursion; the loop itself stops
on the short read of the tag. -/
def Ipc.readerLoopAux (valid : List Nat → Bool) : Nat → RxState → List HostAction
  | 0, _ => []
  | fuel + 1, st =>
      let r := Ipc.readFully st 1
      match r.1 with
      | [t] =>
          if t = EVENT_TYPE_CMP then
            let h := Ipc.handleCmpEvent r.2
            h.1 ++ Ipc.readerLoopAux valid fuel h.2
          else if t = EVENT_TYPE_JUCE then
            let h := Ipc.handleJuceEvent valid r.2
            h.1 ++ Ipc.readerLoopAux valid fuel h.2
          else if t = EVENT_TYPE_MIDI then
            let h := Ipc.handleMidiEvent r.2
            h.1 ++ Ipc.readerLoopAux valid fuel h.2
          else Ipc.readerLoopAux valid fuel r.2
      | _ => []

/-- The receiver loop run to completion on a channel state: one loop iteration
consumes at least the tag byte, so `stream.length + 1` fuel always reaches the
terminating short read. -/
def Ipc.readerLoop (valid : List Nat → Bool) (st : RxState) : List HostAction :=
  Ipc.readerLoopAux valid (st.stream.length + 1) st

/-- A dispatched message is intact: event and MIDI payloads carry exactly the
byte count their header declared, within the protocol bounds; no disconnect
notification exists in the code. -/
def HostAction.intact : HostAction → Prop
  | HostAction.event d p => p.length = d ∧ 0 < d ∧ d ≤ 1048576
  | HostAction.midi d p => p.length = d ∧ 0 < d ∧ d ≤ 255
  | HostAction.frameReady => True
  | HostAction.disconnect => False


/-- Every action `Ipc::handleCmpEvent` emits is intact. -/
theorem Ipc.handleCmpEvent_intact (st : RxState) :
    ∀ a ∈ (Ipc.handleCmpEvent st).1, a.intact := by
  intro a ha
  simp only [Ipc.handleCmpEvent] at ha
  split at ha
  · split at ha <;> simp only [List.mem_singleton, List.not_mem_nil] at ha
    subst ha
    trivial
  · simp only [List.not_mem_nil] at ha

/-- Every action `Ipc::handleJuceEvent` emits is intact: the dispatch site is
reached only when the declared size passed the bound check and `readFully`
returned exactly that many bytes. -/
theorem Ipc.handleJuceEvent_intact (valid : List Nat → Bool) (st : RxState) :
    ∀ a ∈ (Ipc.handleJuceEvent valid st).1, a.intact := by
  intro a ha
  simp only [Ipc.handleJuceEvent] at ha
  split at ha
  · next s0 s1 s2 s3 =>
      split at ha
      · simp only [List.not_mem_nil] at ha
      · next hsz =>
          split at ha
          · next hlen =>
              split at ha <;> simp only [List.mem_singleton, List.not_mem_nil] at ha
              subst ha
              refine ⟨hlen, ?_, ?_⟩ <;> omega
          · simp only [List.not_mem_nil] at ha
  · simp only [List.not_mem_nil] at ha

/-- Every action `Ipc::handleMidiEvent` emits is intact. -/
theorem Ipc.handleMidiEvent_intact (st : RxState) :
    ∀ a ∈ (Ipc.handleMidiEvent st).1, a.intact := by
  intro a ha
  simp only [Ipc.handleMidiEvent] at ha
  split at ha
  · next s0 =>
      split at ha
      · simp only [List.not_mem_nil] at ha
      · next hsz =>
          split at ha
          · next hlen =>
              simp only [List.mem_singleton] at ha
              subst ha
              refine ⟨hlen, ?_, ?_⟩ <;> omega
          · simp only [List.not_mem_nil] at ha
  · simp only [List.not_mem_nil] at ha

/-- Every action the reader loop ever hands to the owning thread is intact,
for every stream, every interruption pattern and every fuel (helper shared by
the receive-path claims). -/
theorem Ipc.readerLoopAux_intact (valid : List Nat → Bool) :
    ∀ fuel st, ∀ a ∈ Ipc.readerLoopAux valid fuel st, a.intact := by
  intro fuel
  induction fuel with
  | zero => intro st a ha; simp [Ipc.readerLoopAux] at ha
  | succ n ih =>
      intro st a ha
      simp only [Ipc.readerLoopAux] at ha
      split at ha
      · split at ha
        · rcases List.mem_append.mp ha with h | h
          · exact Ipc.handleCmpEvent_intact _ a h
          · exact ih _ a h
        · split at ha
          · rcases List.mem_append.mp ha with h | h
            · exact Ipc.handleJuceEvent_intact valid _ a h
            · exact ih _ a h
          · split at ha
            · rcases List.mem_append.mp ha with h | h
              · exact Ipc.handleMidiEvent_intact _ a h
              · exact ih _ a h
            · exact ih _ a ha
      · simp only [List.not_mem_nil] at ha

/-- Validity oracle accepting every payload (a well-formed ValueTree blob). -/
def treeAlwaysValid : List Nat → Bool := fun _ => true

/-- C10: no registered handler is ever invoked with a truncated payload —
every dispatch the reader loop performs, for every stream content, every
mid-read interruption pattern (stream closing mid-payload or `stop()`
clearing the running flag) and every fuel, carries exactly the byte count its
header declared; short messages are discarded, not dispatched. -/
theorem ipc_no_truncated_dispatch (valid : List Nat → Bool) (fuel : Nat)
    (st : RxState) (a : HostAction) (ha : a ∈ Ipc.readerLoopAux valid fuel st) :
    a.intact :=
  Ipc.readerLoopAux_intact valid fuel st a ha

/-- Witness for C10: a 2-byte generic message on an uninterrupted stream is
dispatched intact. -/
theorem ipc_no_truncated_dispatch_witness :
    (HostAction.event 2 [7, 8]).intact :=
  ipc_no_truncated_dispatch treeAlwaysValid 7
    ⟨[EVENT_TYPE_JUCE, 2, 0, 0, 0, 7, 8], []⟩
    (HostAction.event 2 [7, 8]) (by decide)

/-- C3 counterexample: the claim says an oversized (> 1 MiB) length header
makes the receiver drop the connection.  It does not: on the stream carrying
a Generic header declaring 1048577 bytes followed by a FrameReady message,
`Ipc::handleJuceEvent` merely returns (dispatching nothing for the oversized
message and reading none of its declared payload) and `readerLoop` keeps
consuming the same connection — the later FrameReady is still dispatched,
which would be impossible had the connection been dropped. -/
theorem ipc_oversize_drop_connection_false :
    Ipc.readerLoop treeAlwaysValid
        ⟨[EVENT_TYPE_JUCE, 1, 0, 16, 0, EVENT_TYPE_CMP, CMP_EVENT_SURFACE_READY], []⟩ =
      [HostAction.frameReady] ∧
    Ipc.readerLoop treeAlwaysValid
        ⟨[EVENT_TYPE_JUCE, 1, 0, 16, 0, EVENT_TYPE_CMP, CMP_EVENT_SURFACE_READY], []⟩ ≠
      [] := by
  decide

/-- C3 amended: a Generic message whose 4-byte little-endian length header
exceeds 1 MiB is treated as malformed: the receiver dispatches no handler for
it, does not allocate or read the declared payload, and continues the loop
immediately after the 5 header bytes on the same connection (it does not drop
the connection, so the stream continues, possibly desynchronized). -/
theorem ipc_oversize_skipped_connection_kept (valid : List Nat → Bool)
    (fuel s0 s1 s2 s3 : Nat) (rest : List Nat)
    (hsz : 1048576 < s0 + 256 * s1 + 65536 * s2 + 16777216 * s3) :
    Ipc.readerLoopAux valid (fuel + 1)
        ⟨EVENT_TYPE_JUCE :: s0 :: s1 :: s2 :: s3 :: rest, []⟩ =
      Ipc.readerLoopAux valid fuel ⟨rest, []⟩ := by
  simp [Ipc.readerLoopAux, Ipc.readFully, Ipc.handleJuceEvent,
    EVENT_TYPE_CMP, EVENT_TYPE_JUCE, hsz]

/-- Witness for the amended C3 at the concrete oversized header 1048577. -/
theorem ipc_oversize_skipped_connection_kept_witness :
    Ipc.readerLoopAux treeAlwaysValid 3
        ⟨EVENT_TYPE_JUCE :: 1 :: 0 :: 16 :: 0 ::
            [EVENT_TYPE_CMP, CMP_EVENT_SURFACE_READY], []⟩ =
      Ipc.readerLoopAux treeAlwaysValid 2 ⟨[EVENT_TYPE_CMP, CMP_EVENT_SURFACE_READY], []⟩ :=
  ipc_oversize_skipped_connection_kept treeAlwaysValid 2 1 0 16 0
    [EVENT_TYPE_CMP, CMP_EVENT_SURFACE_READY] (by decide)

/-- C7 counterexample: in the claim's scenario — the child has sent FrameReady
and then the control channel's read returns zero (stream end) — the claim
says `on_unexpected_disconnect` fires exactly once.  Ipc.cpp registers no
disconnect handler at all: the reader loop dispatches the frame-ready
notification and then simply breaks, so the number of disconnect
notifications is 0, not 1. -/
theorem ipc_disconnect_fires_once_false :
    ¬ ((Ipc.readerLoop treeAlwaysValid
          ⟨[EVENT_TYPE_CMP, CMP_EVENT_SURFACE_READY], []⟩).count
        HostAction.disconnect = 1) := by
  decide

/-- C7 amended: when the control channel's read returns zero or an error the
receiver loop exits silently — on an exhausted stream it dispatches nothing,
and no reachable dispatch is ever the disconnect notification (the code
defines no `on_unexpected_disconnect` handler); `isRunning()` does become
false without a manual `stop()` once the child process itself has exited,
because it is an OS liveness probe, not a flag. -/
theorem ipc_reader_exit_silent (valid : List Nat → Bool) :
    (∀ fuel caps, Ipc.readerLoopAux valid fuel ⟨[], caps⟩ = []) ∧
    (∀ fuel st a, a ∈ Ipc.readerLoopAux valid fuel st → a ≠ HostAction.disconnect) ∧
    (∀ (s : ChildProcess) (osAlive : Nat → Bool), osAlive s.childPid = false →
      ChildProcess.isRunning s osAlive = false) := by
  refine ⟨?_, ?_, ?_⟩
  · intro fuel caps
    cases fuel with
    | zero => simp [Ipc.readerLoopAux]
    | succ n =>
        cases caps with
        | nil => simp [Ipc.readerLoopAux, Ipc.readFully]
        | cons c cs => simp [Ipc.readerLoopAux, Ipc.readFully]
  · intro fuel st a ha hdis
    have hint := Ipc.readerLoopAux_intact valid fuel st a ha
    rw [hdis] at hint
    exact hint
  · intro s osAlive h
    unfold ChildProcess.isRunning
    by_cases hz : s.childPid = 0
    · simp [hz]
    · simp [hz, h]

/-- Witness for the amended C7: empty stream dispatches nothing; the
frame-ready dispatch of a concrete run is not a disconnect; a dead child is
reported not running. -/
theorem ipc_reader_exit_silent_witness :
    Ipc.readerLoopAux treeAlwaysValid 5 ⟨[], [some 3]⟩ = [] ∧
    HostAction.frameReady ≠ HostAction.disconnect ∧
    ChildProcess.isRunning ⟨none, none, 7⟩ (fun _ => false) = false :=
  ⟨(ipc_reader_exit_silent treeAlwaysValid).1 5 [some 3],
   (ipc_reader_exit_silent treeAlwaysValid).2.1 2
     ⟨[EVENT_TYPE_CMP, CMP_EVENT_SURFACE_READY], []⟩ HostAction.frameReady (by decide),
   (ipc_reader_exit_silent treeAlwaysValid).2.2 ⟨none, none, 7⟩ (fun _ => false) rfl⟩

-- ============================================================================
-- Send path: Ipc::sendInput (Ipc.cpp) and InputSender (InputSender.cpp)
-- ============================================================================

/-- `Ipc::sendInput` (Ipc.cpp lines 66-76): when the socket is open, write the
`EVENT_TYPE_INPUT` tag followed by the 16 raw bytes of the caller's event —
the event is written verbatim; no field, in particular not the timestamp, is
assigned here. -/
def Ipc.sendInput (socketOpen : Bool) (e : InputEvent) : List Nat :=
  if socketOpen then EVENT_TYPE_INPUT :: encodeInputEvent e else []

/-- `InputSender::getTimestampMs` (InputSender.cpp lines 52-55): milliseconds
elapsed since the sender's start time, truncated to uint32. -/
def InputSender.getTimestampMs (startTime now : Nat) : Nat :=
  (now - startTime) % 4294967296

/-- `InputSender::sendInputEvent` (InputSender.cpp lines 57-77): when the pipe
is open, stamp `event.timestamp = getTimestampMs()` at send time and write the
tag plus the 16 event bytes. -/
def InputSender.sendInputEvent (startTime now : Nat) (pipeOpen : Bool)
    (e : InputEvent) : List Nat :=
  if pipeOpen then
    EVENT_TYPE_INPUT ::
      encodeInputEvent { e with timestamp := InputSender.getTimestampMs startTime now }
  else []

/-- `InputSender::sendResize` (InputSender.cpp lines 137-161): a zero
initialized RESIZE event with the new pixel size, `data1 = scale * 100`
(the int16 pattern `scale100`, computed from the float by the caller) and —
bypassing `sendInputEvent` — `timestamp = newSurfaceID`. -/
def InputSender.sendResize (pipeOpen : Bool)
    (width height scale100 surfaceID : Nat) : List Nat :=
  if pipeOpen then
    EVENT_TYPE_INPUT :: encodeInputEvent
      ⟨INPUT_EVENT_RESIZE, 0, 0, 0, width, height, scale100, 0, surfaceID⟩
  else []

/-- `InputEventFactory::mouseMove` (input_event.h lines 106-115): a zero
initialized event with MOUSE/MOVE, the given position and modifiers; the
timestamp field stays 0. -/
def InputEventFactory.mouseMove (x y modifiers : Nat) : InputEvent :=
  ⟨INPUT_EVENT_MOUSE, INPUT_ACTION_MOVE, 0, modifiers, x, y, 0, 0, 0⟩

/-- The timestamp field carried by one wire input message: the uint32 decoded
from bytes 12-15 of the record following the `EVENT_TYPE_INPUT` tag. -/
def wireTimestamp (msg : List Nat) : Option Nat :=
  match msg with
  | t :: rest =>
      if t = EVENT_TYPE_INPUT then (decodeInputEvent rest).map (fun e => e.timestamp)
      else none
  | [] => none

/-- The wire timestamp of an encoded event is the uint32 truncation of its
timestamp field (helper). -/
theorem wireTimestamp_encode (e : InputEvent) :
    wireTimestamp (EVENT_TYPE_INPUT :: encodeInputEvent e) =
      some (e.timestamp % 4294967296) := by
  simp [wireTimestamp, encodeInputEvent, decodeInputEvent]
  omega

/-- C9 counterexample: `Ipc::sendInput` — the send-input operation of the
socket iteration, reached from `ComposeProvider::sendInput` and
`ComposeProvider::resize` — takes no clock and writes the caller's event
verbatim.  A factory-built mouse-move event sent when 5 ms have elapsed since
channel start (start 100, now 105) goes out with wire timestamp 0, not the
elapsed 5 ms the claim requires. -/
theorem ipc_sendInput_timestamp_not_send_time :
    wireTimestamp (Ipc.sendInput true (InputEventFactory.mouseMove 10 20 0)) = some 0 ∧
    InputSender.getTimestampMs 100 105 = 5 ∧
    wireTimestamp (Ipc.sendInput true (InputEventFactory.mouseMove 10 20 0)) ≠
      some (InputSender.getTimestampMs 100 105) := by
  decide

/-- C9 amended: only `InputSender::sendInputEvent` assigns the timestamp at
send time — the wire record carries `(now − start) mod 2^32` milliseconds
since the sender started, monotone non-decreasing in the send instant while
the elapsed time fits a uint32; `Ipc::sendInput` writes the caller's event
unchanged, and `InputSender::sendResize` repurposes the timestamp field for
the new surface id. -/
theorem inputSender_timestamp_at_send_time (startTime n1 n2 : Nat)
    (e1 : InputEvent) (h1 : startTime ≤ n1) (h2 : n1 ≤ n2)
    (hb : n2 - startTime < 4294967296) :
    wireTimestamp (InputSender.sendInputEvent startTime n1 true e1) =
      some ((n1 - startTime) % 4294967296) ∧
    (∀ e, Ipc.sendInput true e = EVENT_TYPE_INPUT :: encodeInputEvent e) ∧
    InputSender.getTimestampMs startTime n1 ≤ InputSender.getTimestampMs startTime n2 ∧
    wireTimestamp (InputSender.sendResize true 800 600 200 42) = some 42 := by
  refine ⟨?_, ?_, ?_, ?_⟩
  · simp only [InputSender.sendInputEvent, if_pos]
    rw [wireTimestamp_encode]
    simp only [InputSender.getTimestampMs, Option.some.injEq]
    omega
  · intro e
    simp [Ipc.sendInput]
  · simp only [InputSender.getTimestampMs]
    omega
  · simp only [InputSender.sendResize, if_pos]
    rw [wireTimestamp_encode]
    norm_num

/-- Witness for the amended C9 at start 100, sends at 105 and 110. -/
theorem inputSender_timestamp_at_send_time_witness :
    wireTimestamp (InputSender.sendInputEvent 100 105 true
        (InputEventFactory.mouseMove 10 20 0)) =
      some ((105 - 100) % 4294967296) ∧
    (∀ e, Ipc.sendInput true e = EVENT_TYPE_INPUT :: encodeInputEvent e) ∧
    InputSender.getTimestampMs 100 105 ≤ InputSender.getTimestampMs 100 110 ∧
    wireTimestamp (InputSender.sendResize true 800 600 200 42) = some 42 :=
  inputSender_timestamp_at_send_time 100 105 110 (InputEventFactory.mouseMove 10 20 0)
    (by decide) (by decide) (by decide)

-- ============================================================================
-- EventReceiver (EventReceiver.h): coalescing dispatch to the owning thread
-- ============================================================================

/-- A ValueTree as far as the coalescing receiver inspects it: its type name,
its optional "id" property (present on `param` trees) and an opaque payload
standing for the rest of the tree's contents. -/
structure MsgTree where
  typeName : String
  paramId : Option String
  payload : Nat
  deriving DecidableEq, Repr

/-- The coalescing key computed by `EventReceiver::enqueue` (EventReceiver.h
lines 128-131): the tree's type name, extended to `"param_<id>"` for a
`param` tree carrying an `id` property. -/
def EventReceiver.keyOf (t : MsgTree) : String :=
  match t.paramId with
  | some i => if t.typeName = "param" then t.typeName ++ "_" ++ i else t.typeName
  | none => t.typeName

/-- Association-list lookup modelling `pendingTrees.find(key)` on the
`std::map` (keys are unique). -/
def lookupKey : List (String × MsgTree) → String → Option MsgTree
  | [], _ => none
  | (k0, v0) :: rest, k => if k0 = k then some v0 else lookupKey rest k

/-- `pendingTrees[key] = tree`: replace the entry in place or append it. -/
def upsertKey : List (String × MsgTree) → String → MsgTree → List (String × MsgTree)
  | [], k, v => [(k, v)]
  | (k0, v0) :: rest, k, v =>
      if k0 = k then (k0, v) :: rest else (k0, v0) :: upsertKey rest k v

/-- `pendingTrees.erase(it)`: drop the entry with the given key. -/
def removeKey : List (String × MsgTree) → String → List (String × MsgTree)
  | [], _ => []
  | (k0, v0) :: rest, k => if k0 = k then rest else (k0, v0) :: removeKey rest k

/-- The shared state of `EventReceiver`: the mutex-guarded pending map and
the FIFO of `MessageManager::callAsync` closures already posted to the owning
thread, each capturing the key it will dispatch. -/
structure EventReceiver where
  pendingTrees : List (String × MsgTree)
  scheduled : List String
  deriving DecidableEq, Repr

/-- `EventReceiver::enqueue` (EventReceiver.h lines 124-155): compute the key,
store the tree under it (replacing any pending tree with the same key), and
post a dispatch closure to the owning thread only when no entry with that key
was already pending. -/
def EventReceiver.enqueue (st : EventReceiver) (t : MsgTree) : EventReceiver :=
  let key := EventReceiver.keyOf t
  let wasEmpty := (lookupKey st.pendingTrees key).isNone
  let pending1 := upsertKey st.pendingTrees key t
  if wasEmpty then ⟨pending1, st.scheduled ++ [key]⟩ else ⟨pending1, st.scheduled⟩

/-- The owning thread running its queued closures in FIFO order
(EventReceiver.h lines 140-154): each closure looks its key up in the pending
map, erases the entry and dispatches the tree to `onEvent`; a key no longer
pending dispatches nothing. -/
def EventReceiver.drainFrom (pending : List (String × MsgTree)) :
    List String → List MsgTree
  | [] => []
  | k :: rest =>
      match lookupKey pending k with
      | some t => t :: EventReceiver.drainFrom (removeKey pending k) rest
      | none => EventReceiver.drainFrom pending rest

/-- All dispatches the owning thread performs when it drains the queue. -/
def EventReceiver.drain (st : EventReceiver) : List MsgTree :=
  EventReceiver.drainFrom st.pendingTrees st.scheduled

/-- A receiver with nothing pending. -/
def EventReceiver.init : EventReceiver := ⟨[], []⟩

/-- C5: two Generic messages enqueued with the same coalescing key before the
owning thread drains result in exactly one dispatched message carrying the
later payload; with two distinct keys both messages are dispatched, in
order. -/
theorem eventReceiver_coalescing (t1 t2 : MsgTree) :
    (EventReceiver.keyOf t1 = EventReceiver.keyOf t2 →
      EventReceiver.drain
          (EventReceiver.enqueue (EventReceiver.enqueue EventReceiver.init t1) t2) =
        [t2]) ∧
    (EventReceiver.keyOf t1 ≠ EventReceiver.keyOf t2 →
      EventReceiver.drain
          (EventReceiver.enqueue (EventReceiver.enqueue EventReceiver.init t1) t2) =
        [t1, t2]) := by
  constructor
  · intro h
    simp [EventReceiver.drain, EventReceiver.drainFrom, EventReceiver.enqueue,
      EventReceiver.init, lookupKey, upsertKey, removeKey, h]
  · intro h
    simp [EventReceiver.drain, EventReceiver.drainFrom, EventReceiver.enqueue,
      EventReceiver.init, lookupKey, upsertKey, removeKey, h]

/-- Witness for C5: two `param` trees with id 3 coalesce to the later payload;
a `param` tree with id 3 and one with id 4 are both dispatched. -/
theorem eventReceiver_coalescing_witness :
    EventReceiver.drain
        (EventReceiver.enqueue
          (EventReceiver.enqueue EventReceiver.init ⟨"param", some "3", 1⟩)
          ⟨"param", some "3", 2⟩) =
      [⟨"param", some "3", 2⟩] ∧
    EventReceiver.drain
        (EventReceiver.enqueue
          (EventReceiver.enqueue EventReceiver.init ⟨"param", some "3", 1⟩)
          ⟨"param", some "4", 3⟩) =
      [⟨"param", some "3", 1⟩, ⟨"param", some "4", 3⟩] :=
  ⟨(eventReceiver_coalescing ⟨"param", some "3", 1⟩ ⟨"param", some "3", 2⟩).1 (by decide),
   (eventReceiver_coalescing ⟨"param", some "3", 1⟩ ⟨"param", some "4", 3⟩).2 (by decide)⟩

-- ============================================================================
-- Surface (Surface.h): shared-surface lifecycle with resize double-buffering
-- ============================================================================

/-- Modelled from the spec: the definitions of `Surface::create`, `resize` and
`release` (a platform Objective-C++ translation unit) are not among the
sources; Surface.h only declares them and the field
`previousSurface_  // Keep alive during resize transition`.  Spec §4.2/§4.5:
resize allocates a brand-new surface and keeps the old one alive internally;
the previous instance is retained across exactly one resize cycle and released
on the next resize or on stop, never at the resize that displaced it.
Surfaces are identified by allocation ids; `nextId` generates fresh ones. -/
structure Surface where
  current : Option Nat
  previousSurface : Option Nat
  nextId : Nat
  deriving DecidableEq, Repr

/-- Allocation and release of surface instances, reified for ordering
claims. -/
inductive SurfAction where
  | createSurface (id : Nat)
  | releaseSurface (id : Nat)
  deriving DecidableEq, Repr

/-- Release of an optionally held surface instance. -/
def releaseActions : Option Nat → List SurfAction
  | some i => [SurfAction.releaseSurface i]
  | none => []

/-- Modelled from the spec: `Surface::resize` as called by
`ComposeProvider::resize` (ComposeProvider.cpp lines 128-149) — drop the
surface retained from the previous resize cycle, retain the current surface
as `previousSurface_`, and allocate exactly one brand-new surface which
becomes current. -/
def Surface.resize (s : Surface) : Surface × List SurfAction :=
  (⟨some s.nextId, s.current, s.nextId + 1⟩,
    releaseActions s.previousSurface ++ [SurfAction.createSurface s.nextId])

/-- Modelled from the spec: `Surface::release` as called by
`ComposeProvider::stop` — drop the retained previous surface and the current
one. -/
def Surface.release (s : Surface) : Surface × List SurfAction :=
  (⟨none, none, s.nextId⟩, releaseActions s.previousSurface ++ releaseActions s.current)

/-- Recognizer for allocation actions. -/
def SurfAction.isCreate : SurfAction → Bool
  | SurfAction.createSurface _ => true
  | SurfAction.releaseSurface _ => false

/-- C8: a resize while running creates exactly one new surface; the surface
that was current going into the resize is not released by that resize — it is
retained as the previous surface across exactly one resize cycle — and it is
released by the next resize and by stop. -/
theorem surface_resize_retains_previous_one_cycle (s : Surface) (c : Nat)
    (hc : s.current = some c) (hprev : s.previousSurface ≠ some c) :
    ((Surface.resize s).2.filter SurfAction.isCreate).length = 1 ∧
    SurfAction.releaseSurface c ∉ (Surface.resize s).2 ∧
    (Surface.resize s).1.previousSurface = some c ∧
    SurfAction.releaseSurface c ∈ (Surface.resize (Surface.resize s).1).2 ∧
    SurfAction.releaseSurface c ∈ (Surface.release (Surface.resize s).1).2 := by
  obtain ⟨cur, prev, nid⟩ := s
  simp only at hc
  subst hc
  rcases prev with _ | p
  · simp [Surface.resize, Surface.release, releaseActions, SurfAction.isCreate]
  · have hp : p ≠ c := by
      intro h
      exact hprev (by simp [h])
    simp [Surface.resize, Surface.release, releaseActions, SurfAction.isCreate, hp,
      Ne.symm hp]

/-- Witness for C8: resizing with current surface 0 and no retained previous
surface. -/
theorem surface_resize_retains_previous_one_cycle_witness :
    ((Surface.resize ⟨some 0, none, 1⟩).2.filter SurfAction.isCreate).length = 1 ∧
    SurfAction.releaseSurface 0 ∉ (Surface.resize ⟨some 0, none, 1⟩).2 ∧
    (Surface.resize ⟨some 0, none, 1⟩).1.previousSurface = some 0 ∧
    SurfAction.releaseSurface 0 ∈ (Surface.resize (Surface.resize ⟨some 0, none, 1⟩).1).2 ∧
    SurfAction.releaseSurface 0 ∈ (Surface.release (Surface.resize ⟨some 0, none, 1⟩).1).2 :=
  surface_resize_retains_previous_one_cycle ⟨some 0, none, 1⟩ 0 (by decide) (by decide)
